import Mathlib

/-!
# Shallow embedding of the tBNB verification / disbursement services

This file models the two services of the repository:

* `verification_service/main.py` — the Eligibility Verifier and the
  Rate-Limit Store (`can_collect_tbnb`, `record_payout`, `verify_builder`);
* `mcp_server/main.py` — the Disbursement Coordinator and Transfer
  Signer/Submitter (`request_tbnb`, `_send_tbnb`, `_derive_account`).

Timestamps are modelled as rationals (seconds on one wall-clock line; the
Python code stores `datetime.now().isoformat()` and parses it back with
`fromisoformat`, a lossless round-trip, so the string encoding is elided).
Float arithmetic on confidence scores and hour counts is modelled with
exact rational arithmetic.  Network and chain I/O is modelled by passing
the outcome of each call explicitly (`Except` values), so the handler bodies
become pure functions of those outcomes.
-/

namespace TbnbMcp

/-- One row of the SQLite `payout_history` table:
`(github_user_id, last_payout_timestamp)`.  `github_user_id` is the
`INTEGER PRIMARY KEY`. -/
abbrev Db := List (Int × ℚ)

/-- `VerificationResponse` pydantic model of `verification_service/main.py`
(lines 35–58).  `confidence` is a float there, modelled as a rational. -/
structure VerificationResponse where
  wallet_address : String
  verified : Bool
  confidence : ℚ
  reason : String
  github_user_id : Option Int := none
  repo_count : Option Int := none
  account_age_days : Option Int := none
deriving Repr, DecidableEq

/-- The Python format specifier `.1f`: render a number with one decimal
digit.  The
rational is rounded to the nearest tenth (Python formats the nearest
double; the rounding of exact ties differs only on values that are exact
odd multiples of 1/20, which the claims do not exercise). -/
def fmt1 (q : ℚ) : String :=
  let n : Int := round (10 * q)
  (if n < 0 then "-" else "") ++ toString (n.natAbs / 10) ++ "." ++ toString (n.natAbs % 10)

/-- The rate-limit failure message of `can_collect_tbnb`
(`verification_service/main.py` lines 100–104), for an elapsed time
`time_since` in seconds: the two adjacent f-strings interpolate the elapsed
hours `time_since.total_seconds() / 3600` and the remaining
`hours_remaining = 24 - time_since.total_seconds() / 3600`, each with the
`.1f` one-decimal format. -/
def rate_limit_message (time_since : ℚ) : String :=
  "Rate limited. Last payout was " ++ fmt1 (time_since / 3600) ++ "h ago. " ++
    "Try again in " ++ fmt1 (24 - time_since / 3600) ++ " hours"

/-- `SELECT last_payout_timestamp FROM payout_history WHERE github_user_id = ?`
followed by `fetchone()`: the first row whose key matches, if any. -/
def lookup_last_payout (db : Db) (github_user_id : Int) : Option ℚ :=
  (db.find? (fun r => r.1 == github_user_id)).map (fun r => r.2)

/-- `can_collect_tbnb` (`verification_service/main.py` lines 77–106): 24-hour
cooldown check.  `now` is `datetime.now()` in seconds; the comparison
`time_since < timedelta(hours=24)` is strict. -/
def can_collect_tbnb (db : Db) (github_user_id : Int) (now : ℚ) : Bool × Option String :=
  match lookup_last_payout db github_user_id with
  | none => (true, none)  -- First time collecting
  | some last_payout =>
    let time_since := now - last_payout
    if time_since < 24 * 3600 then
      (false, some (rate_limit_message time_since))
    else
      (true, none)

/-- `verify_builder` passes `github_user_id` (possibly `None`) to
`can_collect_tbnb`; sqlite binds `None` as SQL `NULL`, and
`github_user_id = NULL` matches no row, so a `None` id always passes the
cooldown check. -/
def can_collect_opt (db : Db) (github_user_id : Option Int) (now : ℚ) : Bool × Option String :=
  match github_user_id with
  | none => (true, none)
  | some uid => can_collect_tbnb db uid now

/-- `record_payout` (`verification_service/main.py` lines 109–123):
`INSERT OR REPLACE INTO payout_history (github_user_id, last_payout_timestamp)`
with `github_user_id` the primary key — any existing row with that key is
deleted and the new row inserted.  `now` is the `datetime.now()` at the
call. -/
def record_payout (db : Db) (github_user_id : Int) (now : ℚ) : Db :=
  db.filter (fun r => !(r.1 == github_user_id)) ++ [(github_user_id, now)]

/-- The fields of the GitHub `/users/{username}` JSON body that
`verify_builder` reads: `id`, `public_repos` (`.get("public_repos", 0)` —
`none` models a missing key), `created_at` (`none` models a missing or
empty string, the falsy cases of `if created_at_str:`; otherwise the
parsed UTC timestamp in seconds). -/
structure GithubUser where
  id : Option Int
  public_repos : Option Int
  created_at : Option ℚ
deriving Repr, DecidableEq

/-- Outcome of `requests.get(f"https://api.github.com/users/{username}")`:
either a `requests.RequestException` (with its text) or an HTTP response
with a status code and parsed JSON body. -/
inductive GithubLookup where
  | failure (exc : String)
  | response (status : Nat) (user : GithubUser)
deriving Repr, DecidableEq

/-- The confidence formula of the all-checks-passed branch
(`verification_service/main.py` line 206):
`min(1.0, 0.7 + (repo_count * 0.05))`. -/
def confidence_for (repo_count : Int) : ℚ :=
  min 1 (7/10 + (repo_count : ℚ) * (5/100))

/-- `verify_builder` (`verification_service/main.py` lines 126–215).
`wallet_address` and the GitHub lookup outcome are inputs; `db` is the
payout-history table and `now` the current time in seconds (the code reads
the clock twice — `datetime.now(timezone.utc)` for the age check and
`datetime.now()` inside `can_collect_tbnb` — modelled as one instant).
`age_days` is `(now - created_at).days`, i.e. the floor of the elapsed
seconds over 86400. -/
def verify_builder (lookup : GithubLookup) (wallet_address : String)
    (db : Db) (now : ℚ) : VerificationResponse :=
  match lookup with
  | .failure exc =>
    { wallet_address, verified := false, confidence := 0,
      reason := "Failed to reach GitHub API: " ++ exc }
  | .response status user =>
    if status ≠ 200 then
      { wallet_address, verified := false, confidence := 0,
        reason := "GitHub account not found (status: " ++ toString status ++ ")" }
    else
      let github_user_id := user.id
      let repo_count := user.public_repos.getD 0
      if repo_count < 1 then
        { wallet_address, verified := false, confidence := 0,
          reason := "No public repositories",
          github_user_id, repo_count := some 0 }
      else
        let age_days : Option Int := user.created_at.map (fun c => ⌊(now - c) / 86400⌋)
        let rate_gate : Option Int → VerificationResponse := fun age_days =>
          match can_collect_opt db github_user_id now with
          | (false, rate_limit_msg) =>
            { wallet_address, verified := false, confidence := 0,
              reason := rate_limit_msg.getD "Rate limited",
              github_user_id, repo_count := some repo_count, account_age_days := age_days }
          | (true, _) =>
            { wallet_address, verified := true,
              confidence := confidence_for repo_count,
              reason := "All verification checks passed",
              github_user_id, repo_count := some repo_count, account_age_days := age_days }
        match age_days with
        | some age =>
          if age < 30 then
            { wallet_address, verified := false, confidence := 0,
              reason := "Account too new (" ++ toString age ++ " days, need 30+)",
              github_user_id, repo_count := some repo_count, account_age_days := some age }
          else rate_gate (some age)
        | none => rate_gate none

/-! ## mcp_server/main.py — Transfer Signer/Submitter and Disbursement Coordinator -/

/-- `secret.replace(",", " ")` on the character list: the pattern and the
replacement are single characters, so the call replaces every comma by a
space. -/
def replace_commas : List Char → List Char
  | [] => []
  | c :: cs => (if c = ',' then ' ' else c) :: replace_commas cs

/-- Python `str.strip()`: drop leading and trailing whitespace. -/
def py_strip (l : List Char) : List Char :=
  ((l.dropWhile Char.isWhitespace).reverse.dropWhile Char.isWhitespace).reverse

/-- Python `str.split()` with no argument: split on runs of whitespace and
drop empty pieces (so no returned token is ever empty). -/
def py_split_ws (l : List Char) : List (List Char) :=
  (l.splitOnP Char.isWhitespace).filter (fun t => !t.isEmpty)

/-- How `_derive_account` obtains the treasury account: either
`Account.from_mnemonic(normalized)` or `Account.from_key(secret.strip())`;
the constructor records which branch ran and with what key material. -/
inductive SecretKind where
  | mnemonic (normalized : List Char)
  | rawKey (key : List Char)
deriving Repr, DecidableEq

/-- `_derive_account` (`mcp_server/main.py` lines 36–41): normalize the env
secret (`secret.replace(",", " ").strip()`); if it splits into at least 12
whitespace-separated tokens, all non-empty (`split()` never yields empty
tokens, so the `all` clause is always satisfied), treat it as a mnemonic,
else as a raw private key. -/
def _derive_account (secret : String) : SecretKind :=
  let normalized := py_strip (replace_commas secret.data)
  if 12 ≤ (py_split_ws normalized).length ∧
      (py_split_ws normalized).all (fun t => !t.isEmpty) then
    .mnemonic normalized
  else
    .rawKey (py_strip secret.data)

/-- Modelled from the words of the spec, for comparison with `_derive_account`:
the tokens of the raw secret split on the space character alone
("a multi-word phrase of ≥12 space-separated tokens"). -/
def space_separated_tokens (secret : String) : List (List Char) :=
  (secret.data.splitOnP (fun c => c == ' ')).filter (fun t => !t.isEmpty)

/-- `DisbursementRequest` pydantic model (`mcp_server/main.py` lines 56–60). -/
structure DisbursementRequest where
  builder_id : String
  wallet_address : String
  github_username : String
  channel : String
deriving Repr, DecidableEq

/-- `DisbursementResponse` pydantic model (`mcp_server/main.py` lines 63–68).
The `verification` dict is the JSON reply of the verification service. -/
structure DisbursementResponse where
  request_id : String
  status : String
  message : String
  tx_hash : Option String
  verification : VerificationResponse
deriving Repr, DecidableEq

/-- A raised `fastapi.HTTPException` with its `status_code` and `detail`. -/
structure HttpError where
  status_code : Nat
  detail : String
deriving Repr, DecidableEq

/-- Observable side-effecting calls issued while handling a request:
`transferCall` is the `initiate_payout`/`_send_tbnb` invocation (the only
place a transaction is signed and submitted), `recordCall` is the HTTP
POST to the `/record-payout` endpoint of the verification service. -/
inductive Event where
  | transferCall (wallet_address : String)
  | recordCall (github_user_id : Int)
deriving Repr, DecidableEq

/-- Python truthiness of `verification.get("github_user_id")` in
`if github_user_id:` — `None` and `0` are falsy. -/
def truthyId : Option Int → Bool
  | none => false
  | some n => n ≠ 0

/-- `request_tbnb` (`mcp_server/main.py` lines 136–168), as a pure function
of the outcomes of its effectful calls: `verification` is the JSON body
returned by `verify_wallet` (the service always populates `verified` and
`reason`, so the dict-`get` defaults at lines 140–141 never fire);
`transfer_outcome` is the result of `initiate_payout` (transaction hash, or
the text of the exception it raised); `record_outcome` is the result of
`record_payout`; `request_id` is the fresh `uuid4`.  Returns the list of
side-effecting calls made and either the raised `HTTPException` or the
response.  A `record_outcome` failure is caught inside the handler and only
logged, so the result never depends on it. -/
def request_tbnb (payload : DisbursementRequest) (verification : VerificationResponse)
    (transfer_outcome : Except String String) (record_outcome : Except String Unit)
    (request_id : String) : List Event × Except HttpError DisbursementResponse :=
  if !verification.verified then
    ([], .error ⟨403, "Verification failed: " ++ verification.reason⟩)
  else
    match transfer_outcome with
    | .error exc => ([.transferCall payload.wallet_address], .error ⟨500, exc⟩)
    | .ok tx_hash =>
      let events :=
        if truthyId verification.github_user_id then
          [Event.transferCall payload.wallet_address,
           Event.recordCall (verification.github_user_id.getD 0)]
        else
          [Event.transferCall payload.wallet_address]
      (events,
       .ok { request_id, status := "approved",
             message := "Disbursement submitted to BSC testnet",
             tx_hash := some tx_hash, verification })

deriving instance DecidableEq for Except

/-- Outcomes of the chain interactions `_send_tbnb` performs, in order:
`Web3.to_checksum_address` (raises on an invalid address), the nonce and
gas price reads, `send_raw_transaction` (transaction hash or error), and
`wait_for_transaction_receipt` (the `status` field of the receipt, or
error). -/
structure ChainEnv where
  checksum_result : Except String String
  nonce : Nat
  gas_price : Nat
  chain_id : Nat
  send_result : Except String String
  receipt : Except String Nat
deriving Repr, DecidableEq

/-- `_send_tbnb` (`mcp_server/main.py` lines 101–127): validate the address,
compute the wei value (`w3.to_wei(amount, "ether")`, i.e. `amount × 10¹⁸`
for a Decimal amount; modelled with the floor for non-integral wei), sign
and submit, wait for the receipt, and require `receipt.status == 1` —
otherwise raise `RuntimeError("On-chain transfer failed.")` even though
submission succeeded.  Returns the transaction hash. -/
def _send_tbnb (env : ChainEnv) (amount : ℚ) : Except String String :=
  match env.checksum_result with
  | .error exc => .error exc
  | .ok _checksum_address =>
    let value_wei : Int := ⌊amount * 10 ^ 18⌋
    if value_wei ≤ 0 then .error "DEFAULT_PAYOUT_AMOUNT must be positive."
    else
      match env.send_result with
      | .error exc => .error exc
      | .ok tx_hash =>
        match env.receipt with
        | .error exc => .error exc
        | .ok status =>
          if status ≠ 1 then .error "On-chain transfer failed."
          else .ok tx_hash

/-- Process-wide state of the MCP server: the treasury account derived from
the env secret, and how many times `_derive_account` has run. -/
structure ServerState where
  treasury_account : SecretKind
  derive_account_calls : Nat
deriving Repr, DecidableEq

/-- Module-level startup (`mcp_server/main.py` line 44):
`treasury_account = _derive_account(TREASURY_SECRET)` runs exactly once
when the process starts. -/
def server_startup (secret : String) : ServerState :=
  { treasury_account := _derive_account secret, derive_account_calls := 1 }

/-- Handling one request: `request_tbnb` (and `_send_tbnb`, which signs with
the startup-derived `treasury_account`) never calls `_derive_account`, so
the server state is unchanged. -/
def server_handle_request (st : ServerState) (payload : DisbursementRequest)
    (verification : VerificationResponse) (transfer_outcome : Except String String)
    (record_outcome : Except String Unit) (request_id : String) :
    ServerState × List Event × Except HttpError DisbursementResponse :=
  (st, request_tbnb payload verification transfer_outcome record_outcome request_id)

/-- One incoming request together with the outcomes of its effectful calls. -/
structure RequestRun where
  payload : DisbursementRequest
  verification : VerificationResponse
  transfer_outcome : Except String String
  record_outcome : Except String Unit
  request_id : String

/-- Run the server over a sequence of requests, threading the process
state. -/
def server_run (st : ServerState) : List RequestRun → ServerState
  | [] => st
  | r :: rs =>
    server_run (server_handle_request st r.payload r.verification r.transfer_outcome
      r.record_outcome r.request_id).1 rs

/-! ## Helper lemmas -/

/-- Every token produced by the no-argument Python `split()` is non-empty,
so the `all(normalized.split())` clause of `_derive_account` always
holds. -/
theorem py_split_ws_all_nonempty (l : List Char) :
    (py_split_ws l).all (fun t => !t.isEmpty) = true := by
  refine List.all_eq_true.2 fun t ht => ?_
  exact (List.mem_filter.1 ht).2

/-- Rows surviving the delete phase of the upsert never carry the upserted
key. -/
theorem filter_upsert_key (l : Db) (uid : Int) :
    (l.filter (fun r => !(r.1 == uid))).filter (fun r => r.1 == uid) = [] := by
  induction l with
  | nil => rfl
  | cons a l ih =>
    by_cases h : a.1 == uid <;> simp [h, ih]

/-- Deleting the rows of a key twice is the same as deleting them once. -/
theorem filter_upsert_idem (l : Db) (uid : Int) :
    (l.filter (fun r => !(r.1 == uid))).filter (fun r => !(r.1 == uid)) =
      l.filter (fun r => !(r.1 == uid)) := by
  induction l with
  | nil => rfl
  | cons a l ih =>
    by_cases h : a.1 == uid <;> simp [h, ih]

/-- After the repository gate has passed and the age gate has passed or been
skipped, `verify_builder` is decided by the rate gate alone. -/
theorem verify_builder_rate_gate
    (user : GithubUser) (wallet_address : String) (db : Db) (now : ℚ)
    (hrepo : 1 ≤ user.public_repos.getD 0)
    (hage : ∀ c ∈ user.created_at, ¬ (⌊(now - c) / 86400⌋ < 30)) :
    verify_builder (.response 200 user) wallet_address db now =
      if (can_collect_opt db user.id now).1 then
        { wallet_address, verified := true,
          confidence := confidence_for (user.public_repos.getD 0),
          reason := "All verification checks passed",
          github_user_id := user.id,
          repo_count := some (user.public_repos.getD 0),
          account_age_days := user.created_at.map (fun c => ⌊(now - c) / 86400⌋) }
      else
        { wallet_address, verified := false, confidence := 0,
          reason := (can_collect_opt db user.id now).2.getD "Rate limited",
          github_user_id := user.id,
          repo_count := some (user.public_repos.getD 0),
          account_age_days := user.created_at.map (fun c => ⌊(now - c) / 86400⌋) } := by
  rcases user with ⟨gid, repos, created⟩
  have hrepo' : (1 : Int) ≤ repos.getD 0 := hrepo
  have hr : ¬ ((repos.getD 0 : Int) < 1) := by omega
  rcases hcc : can_collect_opt db gid now with ⟨b, msg⟩
  cases created with
  | none =>
    cases b <;> simp [verify_builder, hr, hcc]
  | some c =>
    have hc : ¬ (⌊(now - c) / 86400⌋ < 30) := hage c (by simp)
    cases b <;> simp [verify_builder, hr, hc, hcc]

/-! ## Claim theorems -/

/-- C1: for every disbursement request, when the verification verdict has
verified=false the coordinator returns the 403 denial immediately, and no
transfer (and no other side-effecting call) is attempted; the
signer/submitter is thus only ever invoked after a verified=true
verdict. -/
theorem C1_no_transfer_without_true_verdict
    (payload : DisbursementRequest) (verification : VerificationResponse)
    (transfer_outcome : Except String String) (record_outcome : Except String Unit)
    (request_id : String)
    (h : verification.verified = false) :
    request_tbnb payload verification transfer_outcome record_outcome request_id =
      ([], .error ⟨403, "Verification failed: " ++ verification.reason⟩) := by
  simp [request_tbnb, h]

/-- Witness for C1: a concrete denied request issues no calls at all. -/
theorem C1_witness :
    request_tbnb ⟨"b1", "0xABC", "alice", "web"⟩
        { wallet_address := "0xABC", verified := false, confidence := 0,
          reason := "No public repositories" }
        (.ok "0xdeadbeef") (.ok ()) "rid-1" =
      ([], .error ⟨403, "Verification failed: No public repositories"⟩) := by
  have h := C1_no_transfer_without_true_verdict ⟨"b1", "0xABC", "alice", "web"⟩
    { wallet_address := "0xABC", verified := false, confidence := 0,
      reason := "No public repositories" }
    (.ok "0xdeadbeef") (.ok ()) "rid-1" rfl
  rw [h]
  rfl

/-- C2: when the transfer succeeds but the record-payout call fails, the
coordinator still returns status "approved" with the transaction hash, and
the whole outcome (calls made and response) is identical to the one where
recording succeeds — the recording failure is swallowed and invisible. -/
theorem C2_recording_failure_swallowed
    (payload : DisbursementRequest) (verification : VerificationResponse)
    (tx_hash exc : String) (request_id : String)
    (hv : verification.verified = true) :
    (request_tbnb payload verification (.ok tx_hash) (.error exc) request_id).2 =
      .ok { request_id, status := "approved",
            message := "Disbursement submitted to BSC testnet",
            tx_hash := some tx_hash, verification } ∧
    request_tbnb payload verification (.ok tx_hash) (.error exc) request_id =
      request_tbnb payload verification (.ok tx_hash) (.ok ()) request_id := by
  refine ⟨?_, rfl⟩
  by_cases hid : truthyId verification.github_user_id <;> simp [request_tbnb, hv, hid]

/-- Witness for C2: a concrete approved request whose record-payout call
timed out still reports approved with the hash. -/
theorem C2_witness :
    (request_tbnb ⟨"b1", "0xABC", "alice", "web"⟩
        { wallet_address := "0xABC", verified := true, confidence := 1,
          reason := "All verification checks passed", github_user_id := some 7,
          repo_count := some 6, account_age_days := some 400 }
        (.ok "0xdeadbeef") (.error "ReadTimeout") "rid-2").2 =
      .ok { request_id := "rid-2", status := "approved",
            message := "Disbursement submitted to BSC testnet",
            tx_hash := some "0xdeadbeef",
            verification :=
              { wallet_address := "0xABC", verified := true, confidence := 1,
                reason := "All verification checks passed", github_user_id := some 7,
                repo_count := some 6, account_age_days := some 400 } } := by
  exact (C2_recording_failure_swallowed ⟨"b1", "0xABC", "alice", "web"⟩
    { wallet_address := "0xABC", verified := true, confidence := 1,
      reason := "All verification checks passed", github_user_id := some 7,
      repo_count := some 6, account_age_days := some 400 }
    "0xdeadbeef" "ReadTimeout" "rid-2" rfl).1

/-- C9: a submitted transfer whose receipt reports a non-success status
makes `_send_tbnb` raise the submission-failure error; it never returns a
transaction reference. -/
theorem C9_nonsuccess_receipt_is_error
    (env : ChainEnv) (amount : ℚ) (addr tx_hash : String) (status : Nat)
    (hc : env.checksum_result = .ok addr)
    (hpos : 0 < ⌊amount * 10 ^ 18⌋)
    (hs : env.send_result = .ok tx_hash)
    (hr : env.receipt = .ok status)
    (hstatus : status ≠ 1) :
    _send_tbnb env amount = .error "On-chain transfer failed." ∧
    ∀ h, _send_tbnb env amount ≠ .ok h := by
  have hval : ¬ (⌊amount * 10 ^ 18⌋ ≤ 0) := by omega
  refine ⟨?_, ?_⟩ <;> simp [_send_tbnb, hc, hs, hr, hstatus, hval]

/-- Witness for C9: a concrete reverted transfer (receipt status 0) errors
out even though submission returned a hash. -/
theorem C9_witness :
    _send_tbnb ⟨.ok "0xABC", 5, 3, 97, .ok "0xdeadbeef", .ok 0⟩ (3/10) =
      .error "On-chain transfer failed." := by
  refine (C9_nonsuccess_receipt_is_error ⟨.ok "0xABC", 5, 3, 97, .ok "0xdeadbeef", .ok 0⟩
    (3/10) "0xABC" "0xdeadbeef" 0 rfl ?_ rfl rfl (by decide)).1
  norm_num

/-- C10: when the verdict carries no usable identity reference
(github_user_id absent/null or zero, both falsy in Python), a successful
transfer is still answered with "approved" and the hash, but the
record-payout call is skipped entirely, so no rate-limit row is ever
written for that request. -/
theorem C10_falsy_id_skips_recording
    (payload : DisbursementRequest) (verification : VerificationResponse)
    (tx_hash : String) (record_outcome : Except String Unit) (request_id : String)
    (hv : verification.verified = true)
    (hid : truthyId verification.github_user_id = false) :
    request_tbnb payload verification (.ok tx_hash) record_outcome request_id =
      ([.transferCall payload.wallet_address],
       .ok { request_id, status := "approved",
             message := "Disbursement submitted to BSC testnet",
             tx_hash := some tx_hash, verification }) ∧
    ∀ uid, Event.recordCall uid ∉
      (request_tbnb payload verification (.ok tx_hash) record_outcome request_id).1 := by
  have h1 : request_tbnb payload verification (.ok tx_hash) record_outcome request_id =
      ([.transferCall payload.wallet_address],
       .ok { request_id, status := "approved",
             message := "Disbursement submitted to BSC testnet",
             tx_hash := some tx_hash, verification }) := by
    simp [request_tbnb, hv, hid]
  exact ⟨h1, fun uid => by rw [h1]; simp⟩

/-- Witness for C10: a concrete verdict with github_user_id = 0 leads to an
approved response whose only side-effecting call is the transfer. -/
theorem C10_witness :
    request_tbnb ⟨"b1", "0xABC", "alice", "web"⟩
        { wallet_address := "0xABC", verified := true, confidence := 1,
          reason := "All verification checks passed", github_user_id := some 0,
          repo_count := some 6, account_age_days := some 400 }
        (.ok "0xdeadbeef") (.ok ()) "rid-3" =
      ([.transferCall "0xABC"],
       .ok { request_id := "rid-3", status := "approved",
             message := "Disbursement submitted to BSC testnet",
             tx_hash := some "0xdeadbeef",
             verification :=
               { wallet_address := "0xABC", verified := true, confidence := 1,
                 reason := "All verification checks passed", github_user_id := some 0,
                 repo_count := some 6, account_age_days := some 400 } }) := by
  exact (C10_falsy_id_skips_recording ⟨"b1", "0xABC", "alice", "web"⟩
    { wallet_address := "0xABC", verified := true, confidence := 1,
      reason := "All verification checks passed", github_user_id := some 0,
      repo_count := some 6, account_age_days := some 400 }
    "0xdeadbeef" (.ok ()) "rid-3" rfl (by decide)).1

/-- The first row found for a key after an upsert of that key is the
upserted row. -/
theorem find?_after_upsert (l : Db) (uid : Int) (t : ℚ) :
    (l.filter (fun r => !(r.1 == uid)) ++ [(uid, t)]).find? (fun r => r.1 == uid) =
      some (uid, t) := by
  induction l with
  | nil => simp [List.find?]
  | cons a l ih => by_cases h : a.1 == uid <;> simp [h, List.find?, ih]

/-- C3: `record_payout` is an insert-or-replace upsert on the
`github_user_id` primary key: after recording timestamps t1 then t2 for the
same id, the table holds exactly one row for that id, carrying t2, and a
cooldown lookup sees t2. -/
theorem C3_record_payout_upsert (db : Db) (github_user_id : Int) (t1 t2 : ℚ) :
    (record_payout (record_payout db github_user_id t1) github_user_id t2).filter
        (fun r => r.1 == github_user_id) = [(github_user_id, t2)] ∧
    lookup_last_payout (record_payout (record_payout db github_user_id t1) github_user_id t2)
        github_user_id = some t2 := by
  have hmid : record_payout (record_payout db github_user_id t1) github_user_id t2 =
      db.filter (fun r => !(r.1 == github_user_id)) ++ [(github_user_id, t2)] := by
    simp [record_payout, List.filter_append, filter_upsert_idem]
  constructor
  · rw [hmid, List.filter_append, filter_upsert_key]
    simp
  · rw [hmid]
    simp [lookup_last_payout, find?_after_upsert]

/-- C4: when every gate passes, the verdict is verified=true with
confidence min(1, 0.7 + 0.05 × activity) and the all-passed reason; the
confidence formula is monotone in the activity count, capped at 1, and
equals 1 at both 6 and 100 repositories. -/
theorem C4_confidence_formula
    (user : GithubUser) (wallet_address : String) (db : Db) (now : ℚ)
    (hrepo : 1 ≤ user.public_repos.getD 0)
    (hage : ∀ c ∈ user.created_at, ¬ (⌊(now - c) / 86400⌋ < 30))
    (hrate : (can_collect_opt db user.id now).1 = true) :
    verify_builder (.response 200 user) wallet_address db now =
      { wallet_address, verified := true,
        confidence := min 1 (7/10 + (user.public_repos.getD 0 : ℚ) * (5/100)),
        reason := "All verification checks passed",
        github_user_id := user.id,
        repo_count := some (user.public_repos.getD 0),
        account_age_days := user.created_at.map (fun c => ⌊(now - c) / 86400⌋) } ∧
    (∀ n m : ℤ, n ≤ m → confidence_for n ≤ confidence_for m) ∧
    (∀ n : ℤ, confidence_for n ≤ 1) ∧
    confidence_for 6 = 1 ∧ confidence_for 100 = 1 := by
  refine ⟨?_, ?_, ?_, ?_, ?_⟩
  · rw [verify_builder_rate_gate user wallet_address db now hrepo hage]
    simp [hrate, confidence_for]
  · intro n m hnm
    unfold confidence_for
    have h : (n : ℚ) ≤ m := by exact_mod_cast hnm
    have h2 : (7/10 : ℚ) + n * (5/100) ≤ 7/10 + m * (5/100) := by nlinarith
    exact min_le_min le_rfl h2
  · intro n
    exact min_le_left _ _
  · norm_num [confidence_for]
  · norm_num [confidence_for]

/-- Witness for C4: an eligible user with six repositories gets a verified
verdict with confidence exactly 1, as does one with a hundred. -/
theorem C4_witness :
    (verify_builder (.response 200 ⟨some 1, some 6, none⟩) "0xABC" [] 0).verified = true ∧
    (verify_builder (.response 200 ⟨some 1, some 6, none⟩) "0xABC" [] 0).confidence = 1 ∧
    (verify_builder (.response 200 ⟨some 1, some 6, none⟩) "0xABC" [] 0).reason =
      "All verification checks passed" ∧
    confidence_for 6 = 1 ∧ confidence_for 100 = 1 := by
  have h := C4_confidence_formula ⟨some 1, some 6, none⟩ "0xABC" [] 0 (by decide)
    (by simp) rfl
  refine ⟨by rw [h.1], by rw [h.1]; norm_num, by rw [h.1], h.2.2.2.1, h.2.2.2.2⟩

/-- C5: with a recorded payout at time T (for the github user id carried by
the identity), and every other gate passing, a verification strictly
before T+24h is denied with the rate-limit reason carrying the elapsed and
remaining hours at one decimal, while a verification at or after T+24h is
not blocked by the rate gate. -/
theorem C5_rate_limit_window
    (user : GithubUser) (wallet_address : String) (db : Db)
    (uid : Int) (T now : ℚ)
    (hid : user.id = some uid)
    (hrepo : 1 ≤ user.public_repos.getD 0)
    (hage : ∀ c ∈ user.created_at, ¬ (⌊(now - c) / 86400⌋ < 30))
    (hdb : lookup_last_payout db uid = some T) :
    (now - T < 24 * 3600 →
      (verify_builder (.response 200 user) wallet_address db now).verified = false ∧
      (verify_builder (.response 200 user) wallet_address db now).reason =
        "Rate limited. Last payout was " ++ fmt1 ((now - T) / 3600) ++ "h ago. " ++
          "Try again in " ++ fmt1 (24 - (now - T) / 3600) ++ " hours") ∧
    (24 * 3600 ≤ now - T →
      can_collect_tbnb db uid now = (true, none) ∧
      (verify_builder (.response 200 user) wallet_address db now).verified = true) := by
  have hrg := verify_builder_rate_gate user wallet_address db now hrepo hage
  constructor
  · intro hlt
    have hcc : can_collect_tbnb db uid now =
        (false, some (rate_limit_message (now - T))) := by
      simp [can_collect_tbnb, hdb, hlt]
    have hopt : can_collect_opt db user.id now =
        (false, some (rate_limit_message (now - T))) := by
      rw [hid]
      exact hcc
    rw [hrg, hopt]
    simp [rate_limit_message]
  · intro hge
    have hnlt : ¬ (now - T < 24 * 3600) := not_lt.2 hge
    have hcc : can_collect_tbnb db uid now = (true, none) := by
      simp [can_collect_tbnb, hdb, hnlt]
    have hopt : can_collect_opt db user.id now = (true, none) := by
      rw [hid]
      exact hcc
    refine ⟨hcc, ?_⟩
    rw [hrg, hopt]
    simp

/-- Witness for C5: with a payout recorded at time 0, a check at 23h59m
(86340 s) is rate-limited with the formatted reason, and a check at 24h01m
(86460 s) passes the rate gate and verifies. -/
theorem C5_witness :
    (verify_builder (.response 200 ⟨some 1, some 3, none⟩) "0xABC" [(1, 0)] 86340).verified
        = false ∧
    (verify_builder (.response 200 ⟨some 1, some 3, none⟩) "0xABC" [(1, 0)] 86340).reason =
      "Rate limited. Last payout was " ++ fmt1 ((86340 - 0) / 3600) ++ "h ago. " ++
        "Try again in " ++ fmt1 (24 - (86340 - 0) / 3600) ++ " hours" ∧
    can_collect_tbnb [(1, 0)] 1 86460 = (true, none) ∧
    (verify_builder (.response 200 ⟨some 1, some 3, none⟩) "0xABC" [(1, 0)] 86460).verified
        = true := by
  have h1 := C5_rate_limit_window ⟨some 1, some 3, none⟩ "0xABC" [(1, 0)] 1 0 86340
    rfl (by decide) (by simp) rfl
  have h2 := C5_rate_limit_window ⟨some 1, some 3, none⟩ "0xABC" [(1, 0)] 1 0 86460
    rfl (by decide) (by simp) rfl
  obtain ⟨ha, hb⟩ := h1.1 (by norm_num)
  obtain ⟨hc, hd⟩ := h2.2 (by norm_num)
  exact ⟨ha, hb, hc, hd⟩

/-- C6: a lookup result with no creation timestamp skips the age gate: the
verdict reports the account age as unknown (none) and its verified flag is
exactly the rate-gate outcome, so a missing creation timestamp alone never
produces verified=false. -/
theorem C6_missing_created_at_not_failure
    (user : GithubUser) (wallet_address : String) (db : Db) (now : ℚ)
    (hrepo : 1 ≤ user.public_repos.getD 0)
    (hcreated : user.created_at = none) :
    (verify_builder (.response 200 user) wallet_address db now).account_age_days = none ∧
    (verify_builder (.response 200 user) wallet_address db now).verified =
      (can_collect_opt db user.id now).1 := by
  have hrg := verify_builder_rate_gate user wallet_address db now hrepo
    (by rw [hcreated]; simp)
  rw [hrg]
  by_cases hcc : (can_collect_opt db user.id now).1 = true <;> simp [hcc, hcreated]

/-- Witness for C6: a user without a creation timestamp, one repository and
a clean rate-limit store verifies with age reported unknown. -/
theorem C6_witness :
    (verify_builder (.response 200 ⟨some 1, some 2, none⟩) "0xABC" [] 0).account_age_days
        = none ∧
    (verify_builder (.response 200 ⟨some 1, some 2, none⟩) "0xABC" [] 0).verified =
      (can_collect_opt [] (some 1) 0).1 :=
  C6_missing_created_at_not_failure ⟨some 1, some 2, none⟩ "0xABC" [] 0 (by decide) rfl

/-- Counterexample to C7: two different denied verdicts with the same
reason yield identical coordinator outcomes, so the denial response cannot
contain the full verification verdict — the 403 detail string carries only
the reason text. -/
theorem C7_counterexample :
    request_tbnb ⟨"b1", "0xABC", "alice", "web"⟩
        { wallet_address := "0xABC", verified := false, confidence := 0,
          reason := "No public repositories", github_user_id := some 7,
          repo_count := some 0 }
        (.ok "0xdeadbeef") (.ok ()) "rid-4" =
      request_tbnb ⟨"b1", "0xABC", "alice", "web"⟩
        { wallet_address := "0xDEF", verified := false, confidence := 0,
          reason := "No public repositories", github_user_id := some 8,
          repo_count := some 0 }
        (.ok "0xdeadbeef") (.ok ()) "rid-4" ∧
    ({ wallet_address := "0xABC", verified := false, confidence := 0,
       reason := "No public repositories", github_user_id := some 7,
       repo_count := some 0 } : VerificationResponse) ≠
      { wallet_address := "0xDEF", verified := false, confidence := 0,
        reason := "No public repositories", github_user_id := some 8,
        repo_count := some 0 } := by
  exact ⟨rfl, by decide⟩

/-- C7 amended: the denial propagates the verdict reason — the raised 403
carries detail "Verification failed: " followed by the reason text — but
the full verdict is not embedded in the denial: any denied verdict with
the same reason produces the identical outcome. -/
theorem C7_denial_propagates_reason
    (payload : DisbursementRequest) (verification : VerificationResponse)
    (transfer_outcome : Except String String) (record_outcome : Except String Unit)
    (request_id : String)
    (h : verification.verified = false) :
    (request_tbnb payload verification transfer_outcome record_outcome request_id).2 =
      .error ⟨403, "Verification failed: " ++ verification.reason⟩ ∧
    ∀ v' : VerificationResponse, v'.verified = false →
      v'.reason = verification.reason →
      request_tbnb payload v' transfer_outcome record_outcome request_id =
        request_tbnb payload verification transfer_outcome record_outcome request_id := by
  refine ⟨by simp [request_tbnb, h], fun v' h' hr => ?_⟩
  simp [request_tbnb, h, h', hr]

/-- Witness for C7 (amended): a concrete denial carries the reason in its
403 detail. -/
theorem C7_witness :
    (request_tbnb ⟨"b1", "0xABC", "alice", "web"⟩
        { wallet_address := "0xABC", verified := false, confidence := 0,
          reason := "Account too new (10 days, need 30+)" }
        (.ok "0xdeadbeef") (.ok ()) "rid-5").2 =
      .error ⟨403, "Verification failed: Account too new (10 days, need 30+)"⟩ := by
  have h := (C7_denial_propagates_reason ⟨"b1", "0xABC", "alice", "web"⟩
    { wallet_address := "0xABC", verified := false, confidence := 0,
      reason := "Account too new (10 days, need 30+)" }
    (.ok "0xdeadbeef") (.ok ()) "rid-5" rfl).1
  rw [h]
  rfl

/-- Counterexample to C8: twelve comma-separated words form a single
space-separated token, yet `_derive_account` treats the secret as a
mnemonic — commas are normalized to spaces before tokens are counted, so
"anything other than a ≥12 space-separated-token phrase is a raw private
key" fails on this input. -/
theorem C8_counterexample :
    (space_separated_tokens "a,b,c,d,e,f,g,h,i,j,k,l").length = 1 ∧
    _derive_account "a,b,c,d,e,f,g,h,i,j,k,l" =
      .mnemonic "a b c d e f g h i j k l".data ∧
    ∀ key, _derive_account "a,b,c,d,e,f,g,h,i,j,k,l" ≠ .rawKey key := by
  refine ⟨by decide, by decide, fun key => ?_⟩
  intro hcontra
  have h : _derive_account "a,b,c,d,e,f,g,h,i,j,k,l" =
      .mnemonic "a b c d e f g h i j k l".data := by decide
  rw [h] at hcontra
  exact SecretKind.noConfusion hcontra

/-- C8 amended: the secret is classified by the shape of its normalized
form — commas replaced by spaces, then stripped — as a mnemonic exactly
when that form splits into at least 12 whitespace-separated tokens, and as
a raw private key otherwise; the account derivation runs exactly once at
process startup, never during request handling. -/
theorem C8_secret_classification (secret : String) (runs : List RequestRun) :
    _derive_account secret =
      (if 12 ≤ (py_split_ws (py_strip (replace_commas secret.data))).length then
        .mnemonic (py_strip (replace_commas secret.data))
      else .rawKey (py_strip secret.data)) ∧
    server_run (server_startup secret) runs =
      { treasury_account := _derive_account secret, derive_account_calls := 1 } := by
  constructor
  · simp [_derive_account, py_split_ws_all_nonempty]
  · have hinv : ∀ (rs : List RequestRun) (st : ServerState), server_run st rs = st := by
      intro rs
      induction rs with
      | nil => intro st; rfl
      | cons r rs ih => intro st; simpa [server_run, server_handle_request] using ih st
    exact hinv runs (server_startup secret)

end TbnbMcp
